import Mathlib

/-!
Shallow embedding of the Morse-code trainer `src/main.py` (class `MorseGame`
and the accuracy computation of `SessionHistory.save_session`).

Modelling conventions:
- Timestamps and durations are rationals (`ℚ`); `datetime.now()` / `time.time()`
  become an explicit `now : ℚ` argument.
- The mutable `MorseGame` object becomes the `GameState` structure; each method
  is a pure function `GameState → GameState × Eff`, where `Eff` records the
  externally visible effects of one call: audio sequences handed to `sd.play`,
  the end bell, the `save_session` call, and the `ui.timer` tasks scheduled.
- `random.choice(list(MORSE_CODE.keys()))` becomes an index `i` into the key
  list, supplied as an argument.
- `best_score = float('inf')` becomes `none : Option ℚ`.
- UI label text is carried in the state (`statusText`, `scoreDisplay`); the
  final-score string of `score_display` is kept as the structured data that is
  rendered into it.
- An audio-device error from `sd.play` is modelled by a Boolean `audioFail`
  argument on the operations that play sound; a call returns, besides state and
  effects, a flag saying whether an exception escaped the call (Python field
  mutations performed before the raise persist in the returned state).
-/

inductive MSym
  | dot
  | dash
deriving DecidableEq, Repr

abbrev Morse := List MSym

/-- The `MORSE_CODE` dict of `src/main.py` (lines 16-23), in source order. -/
def MORSE_CODE : List (Char × Morse) :=
  [('A', [.dot, .dash]),
   ('B', [.dash, .dot, .dot, .dot]),
   ('C', [.dash, .dot, .dash, .dot]),
   ('D', [.dash, .dot, .dot]),
   ('E', [.dot]),
   ('F', [.dot, .dot, .dash, .dot]),
   ('G', [.dash, .dash, .dot]),
   ('H', [.dot, .dot, .dot, .dot]),
   ('I', [.dot, .dot]),
   ('J', [.dot, .dash, .dash, .dash]),
   ('K', [.dash, .dot, .dash]),
   ('L', [.dot, .dash, .dot, .dot]),
   ('M', [.dash, .dash]),
   ('N', [.dash, .dot]),
   ('O', [.dash, .dash, .dash]),
   ('P', [.dot, .dash, .dash, .dot]),
   ('Q', [.dash, .dash, .dot, .dash]),
   ('R', [.dot, .dash, .dot]),
   ('S', [.dot, .dot, .dot]),
   ('T', [.dash]),
   ('U', [.dot, .dot, .dash]),
   ('V', [.dot, .dot, .dot, .dash]),
   ('W', [.dot, .dash, .dash]),
   ('X', [.dash, .dot, .dot, .dash]),
   ('Y', [.dash, .dot, .dash, .dash]),
   ('Z', [.dash, .dash, .dot, .dot])]

/-- The key list `list(MORSE_CODE.keys())` that `random.choice` draws from. -/
def morseKeys : List Char := MORSE_CODE.map Prod.fst

/-- Dict lookup `MORSE_CODE[c]`; total with default `[]` (never hit for keys). -/
def morseOf (c : Char) : Morse := (MORSE_CODE.lookup c).getD []

/-- One entry of `self.scores`: the tuple `(played_char, time, correct, pressed_char)`. -/
structure Trial where
  played : Char
  time : ℚ
  correct : Bool
  pressed : Char
deriving DecidableEq, Repr

/-- The structured content of the final-score line written to `score_display`
(`correct`, `total`, `percentage`, `avg`) in `stop_session`. -/
structure FinalScore where
  correct : ℕ
  total : ℕ
  percentage : ℚ
  avg : Option ℚ
deriving DecidableEq, Repr

/-- The mutable fields of `MorseGame` relevant to the session state machine. -/
structure GameState where
  sessionActive : Bool
  sessionLength : ℕ
  sessionStartTime : Option ℚ
  currentChar : Option Char
  playTime : Option ℚ
  scores : List Trial
  responseTimes : List ℚ
  bestScore : Option ℚ
  isPlaying : Bool
  wpm : ℚ
  dotDuration : ℚ
  dashDuration : ℚ
  statusText : String
  scoreDisplay : Option FinalScore
deriving DecidableEq, Repr

/-- The kinds of one-shot `ui.timer` tasks the code creates. No call site in
`src/main.py` ever creates a replay-check timer; the constructor exists so the
spec's claim about replay scheduling can be stated over the same type. -/
inductive TimerKind
  | nextCharT
  | stopSessionT
  | replayCheckT (tag : ℕ)
deriving DecidableEq, Repr

def TimerKind.isReplayCheck : TimerKind → Bool
  | .replayCheckT _ => true
  | _ => false

/-- Externally visible effects of one method call. -/
structure Eff where
  played : List Morse
  bellPlayed : Bool
  saved : Option (List Trial × ℚ × ℕ)
  timers : List (ℚ × TimerKind)
  cancelledSessionTimer : Bool
deriving DecidableEq, Repr

def Eff.empty : Eff :=
  { played := [], bellPlayed := false, saved := none, timers := [],
    cancelledSessionTimer := false }

/-- `MorseGame._calculate_dot_duration` (line 288-290): `1.2 / wpm`. -/
def calculate_dot_duration (wpm : ℚ) : ℚ := (12 / 10 : ℚ) / wpm

/-- `MorseGame.update_wpm` (lines 292-297). -/
def update_wpm (newWpm : ℚ) (s : GameState) : GameState :=
  let d := calculate_dot_duration newWpm
  { s with wpm := newWpm, dotDuration := d, dashDuration := d * 3 }

/-- The state as set up by `MorseGame.__init__` (lines 245-277): default
`wpm = 20`, derived dot/dash durations, inactive session, empty logs. -/
def initState : GameState :=
  { sessionActive := false
    sessionLength := 60
    sessionStartTime := none
    currentChar := none
    playTime := none
    scores := []
    responseTimes := []
    bestScore := none
    isPlaying := false
    wpm := 20
    dotDuration := calculate_dot_duration 20
    dashDuration := calculate_dot_duration 20 * 3
    statusText := "Press Start to begin"
    scoreDisplay := none }

/-- `MorseGame.update_ui` (lines 473-516): its only effect on the embedded
state is resetting the status label when the session is inactive (line 486-488). -/
def update_ui (s : GameState) : GameState :=
  if s.sessionActive then s
  else { s with statusText := "Press Start to begin" }

/-- `MorseGame.play_morse_and_reset_timer` (lines 569-577). Returns the state,
the effects, and whether an audio exception escaped the call. The body has no
try/except: when `sd.play` inside `play_morse` raises, the error propagates and
the `self._is_playing = False` on line 577 never runs. -/
def play_morse_and_reset_timer (morse : Morse) (now : ℚ) (audioFail : Bool)
    (s : GameState) : GameState × Eff × Bool :=
  if s.isPlaying then (s, Eff.empty, false)
  else if audioFail then
    ({ s with isPlaying := true, playTime := some now }, Eff.empty, true)
  else
    ({ s with playTime := some now }, { Eff.empty with played := [morse] }, false)

/-- `MorseGame.next_char` (lines 582-589). The random draw is the index `i`
into `morseKeys`. Note the method has no `session_active` guard and creates no
`ui.timer`. -/
def next_char (i : Fin morseKeys.length) (now : ℚ) (audioFail : Bool)
    (s : GameState) : GameState × Eff × Bool :=
  let c := morseKeys.get i
  let s1 := { s with currentChar := some c }
  let morse := morseOf c
  let r := play_morse_and_reset_timer morse now audioFail s1
  if r.2.2 then (r.1, r.2.1, true)
  else (update_ui { r.1 with statusText := "Listening..." }, r.2.1, false)

/-- `MorseGame.handle_keypress` (lines 591-620). `key` is `str(e.key)` as a
character list; the guard on line 592 and the length-1 filter on line 595 are
both the catch-all case. -/
def handle_keypress (key : List Char) (now : ℚ) (s : GameState) :
    GameState × Eff :=
  match s.sessionActive, s.currentChar, s.playTime, key with
  | true, some c, some pt, [k] =>
    let pressed := k.toUpper
    let rt := now - pt
    let s1 :=
      if pressed = c then
        { s with scores := s.scores ++ [Trial.mk c rt true pressed]
                 bestScore := some (match s.bestScore with
                   | none => rt
                   | some b => min b rt)
                 responseTimes := s.responseTimes ++ [rt]
                 statusText := "Correct! (" ++ c.toString ++ ")" }
      else
        { s with scores := s.scores ++ [Trial.mk c rt false pressed]
                 statusText := "Incorrect: you pressed " ++ pressed.toString
                   ++ ", expected " ++ c.toString }
    let s2 := update_ui { s1 with currentChar := none, playTime := none }
    if s2.sessionActive then
      (s2, { Eff.empty with timers := [((1 / 2 : ℚ), .nextCharT)] })
    else (s2, Eff.empty)
  | _, _, _, _ => (s, Eff.empty)

/-- `MorseGame.start_session` (lines 621-636). -/
def start_session (lengthInput : ℕ) (now : ℚ) (s : GameState) :
    GameState × Eff :=
  if s.sessionActive then (s, Eff.empty)
  else
    let s1 := { s with sessionLength := lengthInput
                       sessionActive := true
                       scores := []
                       sessionStartTime := some now
                       statusText := "Session started!"
                       scoreDisplay := none }
    (update_ui s1,
     { Eff.empty with
        timers := [((1 : ℚ), .nextCharT), ((lengthInput : ℚ), .stopSessionT)] })

/-- The statistics computed inside `SessionHistory.save_session`
(lines 94-100): `(total_attempts, correct_attempts, accuracy, avg_response_time)`. -/
def save_session_stats (scores : List Trial) : ℕ × ℕ × ℚ × Option ℚ :=
  let total := scores.length
  let correctA := (scores.filter (fun t => t.correct)).length
  let accuracy := if total > 0 then (correctA : ℚ) / (total : ℚ) * 100 else 0
  let correctTimes := (scores.filter (fun t => t.correct)).map (fun t => t.time)
  let avg := if correctTimes.length > 0
    then some (correctTimes.sum / (correctTimes.length : ℚ)) else none
  (total, correctA, accuracy, avg)

/-- The accuracy field written by `SessionHistory.save_session` (line 97). -/
def save_session_accuracy (scores : List Trial) : ℚ :=
  (save_session_stats scores).2.2.1

/-- `MorseGame.stop_session` (lines 638-678). `bellFail` says whether
`self.play_bell()` raises; the raise is swallowed by the try/except on
lines 673-677, so the call never lets an exception escape and always completes. -/
def stop_session (bellFail : Bool) (s : GameState) : GameState × Eff :=
  if s.sessionActive = false then (s, Eff.empty)
  else
    let s1 := { s with sessionActive := false, currentChar := none,
                       playTime := none }
    let bell : Bool := bellFail == false
    if s1.scores.length > 0 then
      let correct : ℕ := (s1.scores.filter (fun t => t.correct)).length
      let total : ℕ := s1.scores.length
      let percentage := if total > 0 then (correct : ℚ) / (total : ℚ) * 100 else 0
      let correctTimes : List ℚ := (s1.scores.filter (fun t => t.correct)).map
        (fun t => t.time)
      let avg : Option ℚ := if correctTimes.length > 0
        then some (correctTimes.sum / (correctTimes.length : ℚ)) else none
      let fs := FinalScore.mk correct total percentage avg
      let s2 := { s1 with scoreDisplay := some fs }
      let e := { Eff.empty with
        bellPlayed := bell
        saved := some (s2.scores, s2.wpm, s2.sessionLength)
        cancelledSessionTimer := true }
      (update_ui s2, e)
    else
      let e := { Eff.empty with
        bellPlayed := bell
        cancelledSessionTimer := true }
      (update_ui s1, e)

/-- Modelled from the spec: the replay timeout handler of spec section 4.3 is
absent from this revision of `src/main.py` (the file contains no generation
counter and no replay timer; blank lines 579-581 sit where other revisions
define it). Fields follow the spec's PlaybackState of section 3 plus the
session flag and trial log the handler's guards and the claim mention. -/
structure ReplayState where
  isPlaying : Bool
  sessionActive : Bool
  currentCharacter : Option Char
  promptIssuedAt : Option ℚ
  generation : ℕ
  trialLog : List Trial
deriving DecidableEq, Repr

/-- Modelled from the spec: replay timeout handler (section 4.3). It no-ops if
the tag is stale, the session inactive, no character pending, or playback in
progress; otherwise it re-checks that 1.5 s elapsed since `promptIssuedAt` and
replays (returned Boolean = audio played), mutating nothing and scheduling no
follow-up (the no-reset-on-replay variant fixed by spec section 9). -/
def replay_timeout_handler (tag : ℕ) (now : ℚ) (st : ReplayState) :
    ReplayState × Bool :=
  if tag ≠ st.generation then (st, false)
  else if st.sessionActive = false then (st, false)
  else if st.currentCharacter = none then (st, false)
  else if st.isPlaying then (st, false)
  else
    match st.promptIssuedAt with
    | some p => if (3 / 2 : ℚ) ≤ now - p then (st, true) else (st, false)
    | none => (st, false)

/-- The acceptance guard of `handle_keypress` (line 592): a keypress can be
accepted exactly when the session is active, a character is pending, and a
prompt time is recorded. -/
def canAcceptKey (s : GameState) : Bool :=
  s.sessionActive && s.currentChar.isSome && s.playTime.isSome

/-- The session-state invariant: a pending character implies an active session
and a recorded prompt time, and no playback is in flight at operation
boundaries. (At most one character is pending by construction: `currentChar`
is a single `Option`.) -/
def SessionInv (s : GameState) : Prop :=
  (s.currentChar.isSome = true →
    s.sessionActive = true ∧ s.playTime.isSome = true) ∧
  s.isPlaying = false

/-- Index of the key `'M'` in `morseKeys`, used for concrete evaluations. -/
def mIdx : Fin morseKeys.length := ⟨12, by decide⟩

/-- A fresh active session with no pending character, as reached right after
`start_session` and before the first `next_char` timer fires. -/
def activeEmpty : GameState :=
  { initState with sessionActive := true, sessionStartTime := some 0 }

/-- An active session awaiting the answer for `'M'`, prompt issued at t = 2. -/
def activeM : GameState :=
  { initState with
      sessionActive := true
      sessionStartTime := some 0
      currentChar := some 'M'
      playTime := some 2 }

/-- An active session with no pending character but one recorded trial, as
reached during the 0.5 s pacing gap after an answer. -/
def pacingGap : GameState :=
  { initState with
      sessionActive := true
      sessionStartTime := some 0
      scores := [Trial.mk 'M' 1 true 'M'] }

theorem update_ui_scoreDisplay (s : GameState) :
    (update_ui s).scoreDisplay = s.scoreDisplay := by
  unfold update_ui
  split <;> rfl

instance SessionInv.instDec (s : GameState) : Decidable (SessionInv s) := by
  unfold SessionInv
  infer_instance

theorem inv_waiting_iff (s : GameState) (h : SessionInv s) :
    (s.currentChar.isSome = true ↔ canAcceptKey s = true) := by
  obtain ⟨h1, h2⟩ := h
  unfold canAcceptKey
  constructor
  · intro hc
    rcases h1 hc with ⟨ha, hp⟩
    simp [ha, hc, hp]
  · intro hc
    simp [Bool.and_eq_true] at hc
    exact hc.1.2

theorem start_session_inv (l : ℕ) (now : ℚ) (s : GameState) (h : SessionInv s) :
    SessionInv (start_session l now s).1 := by
  obtain ⟨h1, h2⟩ := h
  unfold start_session update_ui SessionInv
  split
  · exact ⟨h1, h2⟩
  · simp_all

theorem next_char_inv (i : Fin morseKeys.length) (now : ℚ) (s : GameState)
    (h : SessionInv s) (hA : s.sessionActive = true) :
    SessionInv (next_char i now false s).1 := by
  obtain ⟨h1, h2⟩ := h
  unfold next_char play_morse_and_reset_timer update_ui SessionInv
  simp [h2, hA]

theorem handle_keypress_inv (key : List Char) (now : ℚ) (s : GameState)
    (h : SessionInv s) : SessionInv (handle_keypress key now s).1 := by
  obtain ⟨h1, h2⟩ := h
  unfold SessionInv
  unfold handle_keypress
  split
  · dsimp only
    split_ifs <;> simp [update_ui, h2] <;> split_ifs <;> simp [h2]
  · exact ⟨h1, h2⟩

theorem stop_session_inv (bf : Bool) (s : GameState) (h : SessionInv s) :
    SessionInv (stop_session bf s).1 := by
  obtain ⟨h1, h2⟩ := h
  unfold SessionInv
  unfold stop_session update_ui
  split
  · exact ⟨h1, h2⟩
  · dsimp only
    split_ifs <;> simp [h2]

/-- C1: a replay callback whose generation tag differs from the current
generation triggers no audio playback (returned flag is `false`) and mutates
no session state: the returned `ReplayState` — `currentCharacter`,
`promptIssuedAt`, `generation` and the trial log — is the input unchanged.
Settled against the spec-modelled `replay_timeout_handler`, since this
revision of `src/main.py` contains no replay callback. -/
theorem replay_stale_generation_noop (tag : ℕ) (now : ℚ) (st : ReplayState)
    (h : tag ≠ st.generation) :
    replay_timeout_handler tag now st = (st, false) := by
  unfold replay_timeout_handler
  simp [h]

/-- Witness for C1 at tag 3 against current generation 5. -/
theorem replay_stale_generation_noop_check :
    (3 : ℕ) ≠ (ReplayState.mk false true (some 'A') (some 0) 5 []).generation ∧
    replay_timeout_handler 3 2 (ReplayState.mk false true (some 'A') (some 0) 5 [])
      = (ReplayState.mk false true (some 'A') (some 0) 5 [], false) :=
  ⟨by decide, replay_stale_generation_noop 3 2
    (ReplayState.mk false true (some 'A') (some 0) 5 []) (by decide)⟩

/-- C2 counterexample: a concrete `next_char` call (drawing `'M'` on a fresh
active session) schedules zero replay checks, not exactly one — `next_char`
creates no `ui.timer` at all in `src/main.py` lines 582-589. -/
theorem next_char_schedules_no_replay_refutes :
    ¬ (((next_char mIdx 0 false activeEmpty).2.1.timers.filter
        (fun t => t.2.isReplayCheck)).length = 1) := by decide

/-- C2 amended: every `next_char` call triggers playback of the chosen
character's tone sequence (when no playback is in progress and the audio
device does not fail) but schedules no timer at all — in particular no replay
check — so a presented character left unanswered is never replayed. -/
theorem next_char_schedules_no_timer (i : Fin morseKeys.length) (now : ℚ)
    (af : Bool) (s : GameState)
    (h1 : s.isPlaying = false) (h2 : af = false) :
    (next_char i now af s).2.1.timers = [] ∧
    (next_char i now af s).2.1.played = [morseOf (morseKeys.get i)] := by
  subst h2
  unfold next_char play_morse_and_reset_timer
  simp [h1, Eff.empty]

/-- Witness for the amended C2 on a fresh active session drawing `'M'`. -/
theorem next_char_schedules_no_timer_check :
    activeEmpty.isPlaying = false ∧ (false : Bool) = false ∧
    ((next_char mIdx 0 false activeEmpty).2.1.timers = [] ∧
     (next_char mIdx 0 false activeEmpty).2.1.played
       = [morseOf (morseKeys.get mIdx)]) :=
  ⟨rfl, rfl, next_char_schedules_no_timer mIdx 0 false activeEmpty rfl rfl⟩

/-- C3 counterexample: `next_char` does not preserve the invariant. From the
initial (inactive) state, which satisfies `SessionInv` and the biconditional
"currentChar is non-null iff a keypress can be accepted", calling `next_char`
(it has no session-active guard) yields a state with a pending character on
which `canAcceptKey` is false — reachable in the program when the 0.5 s
pacing timer fires after the session was stopped. -/
theorem next_char_breaks_waiting_iff :
    SessionInv initState ∧
    (initState.currentChar.isSome = true ↔ canAcceptKey initState = true) ∧
    (next_char mIdx 0 false initState).1.currentChar.isSome = true ∧
    canAcceptKey (next_char mIdx 0 false initState).1 = false :=
  ⟨by decide, by decide, by decide, by decide⟩

/-- C3 amended: at most one character is pending by construction
(`currentChar` is a single `Option`), in invariant states `currentChar` is
non-null iff a keypress can be accepted, and `start_session`,
`handle_keypress` and `stop_session` preserve `SessionInv` unconditionally,
while `next_char` preserves it only when the session is active (it lacks an
inactive-session guard). -/
theorem session_ops_preserve_invariant (s : GameState) (l : ℕ) (t1 t2 t3 : ℚ)
    (i : Fin morseKeys.length) (key : List Char) (bf : Bool)
    (h : SessionInv s) :
    (s.currentChar.isSome = true ↔ canAcceptKey s = true) ∧
    SessionInv (start_session l t1 s).1 ∧
    (s.sessionActive = true → SessionInv (next_char i t2 false s).1) ∧
    SessionInv (handle_keypress key t3 s).1 ∧
    SessionInv (stop_session bf s).1 :=
  ⟨inv_waiting_iff s h, start_session_inv l t1 s h,
   fun hA => next_char_inv i t2 s h hA, handle_keypress_inv key t3 s h,
   stop_session_inv bf s h⟩

/-- Witness for the amended C3 on an active session awaiting `'M'`. -/
theorem session_ops_preserve_invariant_check :
    SessionInv activeM ∧
    ((activeM.currentChar.isSome = true ↔ canAcceptKey activeM = true) ∧
     SessionInv (start_session 60 0 activeM).1 ∧
     (activeM.sessionActive = true → SessionInv (next_char mIdx 1 false activeM).1) ∧
     SessionInv (handle_keypress ['M'] 2 activeM).1 ∧
     SessionInv (stop_session false activeM).1) :=
  ⟨by decide,
   session_ops_preserve_invariant activeM 60 0 1 2 mIdx ['M'] false (by decide)⟩

/-- C4 counterexample: an audio-device error during tone playback is NOT
caught — on a concrete active session, a failing `next_char` call lets the
exception escape (third component `true`) and leaves the `_is_playing` guard
stuck at `true` (line 577 of `src/main.py` never runs). -/
theorem tone_error_escapes_next_char :
    (next_char mIdx 0 true activeEmpty).2.2 = true ∧
    (next_char mIdx 0 true activeEmpty).1.isPlaying = true := by decide

/-- C4 amended: only bell playback is protected. An audio error during tone
playback escapes `play_morse_and_reset_timer` with `_is_playing` left `true`,
while an audio error during bell playback inside `stop_session` is caught by
the try/except of lines 673-677: the stop completes, deactivates the session,
and yields exactly the state of a non-failing stop, differing only in the
missing bell sound. -/
theorem audio_error_caught_only_for_bell (m : Morse) (now : ℚ)
    (s s2 : GameState) (h : s.isPlaying = false) (hA : s2.sessionActive = true) :
    ((play_morse_and_reset_timer m now true s).2.2 = true ∧
     (play_morse_and_reset_timer m now true s).1.isPlaying = true) ∧
    ((stop_session true s2).1 = (stop_session false s2).1 ∧
     (stop_session true s2).1.sessionActive = false ∧
     (stop_session true s2).2.bellPlayed = false) := by
  constructor
  · unfold play_morse_and_reset_timer
    simp [h]
  · unfold stop_session update_ui
    simp [hA]
    split_ifs <;> simp

/-- Witness for the amended C4 on a fresh active session. -/
theorem audio_error_caught_only_for_bell_check :
    activeEmpty.isPlaying = false ∧ activeEmpty.sessionActive = true ∧
    (((play_morse_and_reset_timer [MSym.dash] 0 true activeEmpty).2.2 = true ∧
      (play_morse_and_reset_timer [MSym.dash] 0 true activeEmpty).1.isPlaying = true) ∧
     ((stop_session true activeEmpty).1 = (stop_session false activeEmpty).1 ∧
      (stop_session true activeEmpty).1.sessionActive = false ∧
      (stop_session true activeEmpty).2.bellPlayed = false)) :=
  ⟨rfl, rfl, audio_error_caught_only_for_bell [MSym.dash] 0
    activeEmpty activeEmpty rfl rfl⟩

/-- C5 counterexample: on a concrete active session in the pacing gap
(no character pending, one recorded trial), `stop_session` is NOT a no-op:
the end bell is played and the session is saved. The guard on line 639 of
`src/main.py` tests session activity, not character pendency. -/
theorem stop_without_pending_char_not_noop :
    pacingGap.sessionActive = true ∧ pacingGap.currentChar = none ∧
    (stop_session false pacingGap).2.bellPlayed = true ∧
    (stop_session false pacingGap).2.saved ≠ none := by decide

/-- C5 amended: calling `stop_session` while the session is INACTIVE is a
no-op — no bell, no save, no state change; when the session is active,
`stop_session` proceeds regardless of whether a character is pending. -/
theorem stop_session_inactive_noop (bf : Bool) (s : GameState)
    (h : s.sessionActive = false) : stop_session bf s = (s, Eff.empty) := by
  simp [stop_session, h]

/-- Witness for the amended C5 on the initial (inactive) state. -/
theorem stop_session_inactive_noop_check :
    initState.sessionActive = false ∧
    stop_session true initState = (initState, Eff.empty) :=
  ⟨rfl, stop_session_inactive_noop true initState rfl⟩

/-- C6: on an active session with a pending character, `handle_keypress` with
a single-character key whose uppercase form equals `currentChar` appends
exactly one Trial with `correct = true` and `pressed` equal to that
(normalized) key, and afterwards `currentChar` and `playTime` are null. -/
theorem handle_correct_key_appends_one_trial (s : GameState) (c k : Char)
    (pt now : ℚ) (hA : s.sessionActive = true) (hc : s.currentChar = some c)
    (hp : s.playTime = some pt) (hk : k.toUpper = c) :
    (handle_keypress [k] now s).1.scores
      = s.scores ++ [Trial.mk c (now - pt) true k.toUpper] ∧
    (handle_keypress [k] now s).1.currentChar = none ∧
    (handle_keypress [k] now s).1.playTime = none := by
  unfold handle_keypress update_ui
  simp [hA, hc, hp, hk]

/-- Witness for C6: pressing lowercase `'m'` for pending `'M'` at t = 5/2
with prompt at t = 2. -/
theorem handle_correct_key_appends_one_trial_check :
    activeM.sessionActive = true ∧ activeM.currentChar = some 'M' ∧
    activeM.playTime = some 2 ∧ Char.toUpper 'm' = 'M' ∧
    ((handle_keypress ['m'] (5/2) activeM).1.scores
       = activeM.scores ++ [Trial.mk 'M' ((5/2) - 2) true (Char.toUpper 'm')] ∧
     (handle_keypress ['m'] (5/2) activeM).1.currentChar = none ∧
     (handle_keypress ['m'] (5/2) activeM).1.playTime = none) :=
  ⟨rfl, rfl, rfl, by decide,
   handle_correct_key_appends_one_trial activeM 'M' 'm' 2 (5/2) rfl rfl rfl
     (by decide)⟩

/-- C7: calling `start_session` while a session is already active is a no-op:
the state is returned unchanged (in particular the trial log `scores` is not
cleared) and no effect — no timer — is produced. -/
theorem start_session_active_noop (l : ℕ) (now : ℚ) (s : GameState)
    (h : s.sessionActive = true) : start_session l now s = (s, Eff.empty) := by
  simp [start_session, h]

/-- Witness for C7 on an active session awaiting `'M'`. -/
theorem start_session_active_noop_check :
    activeM.sessionActive = true ∧
    start_session 10 7 activeM = (activeM, Eff.empty) :=
  ⟨rfl, start_session_active_noop 10 7 activeM rfl⟩

/-- C8: for every WPM in [10, 30], the dot duration equals 1.2 / wpm (12/10
as an exact rational) and the dash duration equals 3 times the dot duration,
both in the default state (wpm = 20) and after `update_wpm`. -/
theorem dot_dash_duration_formula (s : GameState) (w : ℚ)
    (h1 : 10 ≤ w) (h2 : w ≤ 30) :
    initState.dotDuration = (12/10 : ℚ) / initState.wpm ∧
    initState.dashDuration = 3 * initState.dotDuration ∧
    (update_wpm w s).dotDuration = (12/10 : ℚ) / w ∧
    (update_wpm w s).dashDuration = 3 * (update_wpm w s).dotDuration := by
  refine ⟨rfl, ?_, rfl, ?_⟩
  · show calculate_dot_duration 20 * 3 = 3 * calculate_dot_duration 20
    ring
  · show calculate_dot_duration w * 3 = 3 * calculate_dot_duration w
    ring

/-- Witness for C8 at the default speed of 20 WPM. -/
theorem dot_dash_duration_formula_check :
    (10 : ℚ) ≤ 20 ∧ (20 : ℚ) ≤ 30 ∧
    (initState.dotDuration = (12/10 : ℚ) / initState.wpm ∧
     initState.dashDuration = 3 * initState.dotDuration ∧
     (update_wpm 20 initState).dotDuration = (12/10 : ℚ) / 20 ∧
     (update_wpm 20 initState).dashDuration
       = 3 * (update_wpm 20 initState).dotDuration) :=
  ⟨by norm_num, by norm_num,
   dot_dash_duration_formula initState 20 (by norm_num) (by norm_num)⟩

/-- C9: accuracy is `correct / total * 100` guarded by `total > 0`, and 0 on
an empty trial log — a total function on ℚ, never a division error or NaN —
both in `save_session` and in the final-score display of `stop_session`,
whose displayed percentage agrees with `save_session_accuracy`. -/
theorem accuracy_formula_and_empty_zero (sc : List Trial) (bf : Bool)
    (s : GameState) (hA : s.sessionActive = true) (hs : s.scores ≠ []) :
    save_session_accuracy [] = 0 ∧
    (sc ≠ [] → save_session_accuracy sc
        = ((sc.filter (fun t => t.correct)).length : ℚ) / (sc.length : ℚ) * 100) ∧
    ((stop_session bf s).1.scoreDisplay.map (fun fs => fs.percentage))
        = some (save_session_accuracy s.scores) := by
  refine ⟨by norm_num [save_session_accuracy, save_session_stats], ?_, ?_⟩
  · intro h
    unfold save_session_accuracy save_session_stats
    simp [List.length_pos.mpr h]
  · unfold stop_session update_ui save_session_accuracy save_session_stats
    simp [hA, List.length_pos.mpr hs]

/-- Witness for C9 on a one-trial session stopping in the pacing gap. -/
theorem accuracy_formula_and_empty_zero_check :
    pacingGap.sessionActive = true ∧ pacingGap.scores ≠ [] ∧
    (save_session_accuracy [] = 0 ∧
     (([Trial.mk 'M' 1 true 'M'] : List Trial) ≠ [] →
       save_session_accuracy [Trial.mk 'M' 1 true 'M']
         = ((([Trial.mk 'M' 1 true 'M'] : List Trial).filter
              (fun t => t.correct)).length : ℚ)
             / (([Trial.mk 'M' 1 true 'M'] : List Trial).length : ℚ) * 100) ∧
     ((stop_session false pacingGap).1.scoreDisplay.map (fun fs => fs.percentage))
        = some (save_session_accuracy pacingGap.scores)) :=
  ⟨rfl, by decide,
   accuracy_formula_and_empty_zero [Trial.mk 'M' 1 true 'M'] false pacingGap
     rfl (by decide)⟩

/-- C10: stopping an active session whose trial log is empty calls
`save_session` with nothing (`saved = none`) and produces no final-score
summary (`scoreDisplay` unchanged); and in general a save only ever happens
when the trial log is non-empty. -/
theorem empty_session_not_saved (s s2 : GameState) (bf bf2 : Bool)
    (hA : s.sessionActive = true) (hE : s.scores = []) :
    (stop_session bf s).2.saved = none ∧
    (stop_session bf s).1.scoreDisplay = s.scoreDisplay ∧
    ((stop_session bf2 s2).2.saved ≠ none → s2.scores ≠ []) := by
  refine ⟨?_, ?_, ?_⟩
  · unfold stop_session
    simp [hA, hE, Eff.empty]
  · unfold stop_session update_ui
    simp [hA, hE]
  · unfold stop_session
    split
    · simp [Eff.empty]
    · dsimp only
      split_ifs with hl <;>
        first
          | (intro hne; simpa using List.length_pos.mp hl)
          | simp [Eff.empty]

/-- Witness for C10 on an active session with an empty trial log. -/
theorem empty_session_not_saved_check :
    activeEmpty.sessionActive = true ∧ activeEmpty.scores = [] ∧
    ((stop_session false activeEmpty).2.saved = none ∧
     (stop_session false activeEmpty).1.scoreDisplay = activeEmpty.scoreDisplay ∧
     ((stop_session true initState).2.saved ≠ none → initState.scores ≠ [])) :=
  ⟨rfl, rfl, empty_session_not_saved activeEmpty initState false true rfl rfl⟩
